import Mathlib

/-!
Verification of the span-lifecycle bookkeeping in the telemetry hook modules
of the agent-telemetry repository.

The three hook variants (`telemetryHooksSingleTrace`, `telemetryHooksByAgent`,
`telemetryHooksIndividualTraces`) are embedded as explicit state machines:
a `Telemetry` value is an allocation log of span records, registries are
insertion-ordered association lists mirroring JavaScript `Map` semantics,
and each lifecycle handler is a pure step function from state and event
payload to an acknowledgment and a new state.
-/

/-- Outcome of serializing a JavaScript value for attribute storage:
`JSON.stringify` either succeeds with `json`, or throws, in which case the
code falls back to the `String(...)` coercion `coerced`.  A payload value is
modelled by this serialization behaviour, which is all the handlers observe. -/
structure JsPayload where
  jsonOk : Bool
  json : String
  coerced : String
deriving DecidableEq, Repr

/-- The serialization the handlers perform: JSON.stringify in a try block,
falling back to the String coercion when it throws. -/
def stringifyOrCoerce (p : JsPayload) : String :=
  if p.jsonOk then p.json else p.coerced

/-- JavaScript truthiness of an optional string: `undefined` and the empty
string are falsy. -/
def isTruthy : Option String → Bool
  | some s => s ≠ ""
  | none => false

/-- The JavaScript `a || b` idiom on optional strings. -/
def jsOr (a b : Option String) : Option String :=
  if isTruthy a then a else b

/-- The JavaScript `e || "Unknown error"` default applied to the failure
handler's error field. -/
def errorOrDefault (e : Option String) : String :=
  match jsOr e (some "Unknown error") with
  | some s => s
  | none => "Unknown error"

/-- The call value.substring(0, n): the first `n` characters of the string. -/
def jsSubstring (s : String) (n : Nat) : String :=
  String.mk (s.data.take n)

/-- The constant MAX_ATTRIBUTE_LENGTH from the hook modules. -/
def MAX_ATTRIBUTE_LENGTH : Nat := 10000

/-- The function truncateAttribute: returns the value unchanged when its
length is at most `maxLength`, otherwise the first `maxLength` characters
followed by the literal marker. -/
def truncateAttribute (value : String) (maxLength : Nat) : String :=
  if value.length ≤ maxLength then value
  else jsSubstring value maxLength ++ "... [truncated]"

/-- Lookup in a JavaScript `Map` modelled as an insertion-ordered list. -/
def mapGet {α : Type} (m : List (String × α)) (k : String) : Option α :=
  (m.find? (fun p => p.1 == k)).map (fun p => p.2)

/-- The Map.set operation: replaces the value in place when the key exists, otherwise
appends the new binding at the end (JavaScript `Map` insertion order). -/
def mapSet {α : Type} (m : List (String × α)) (k : String) (v : α) :
    List (String × α) :=
  if (m.find? (fun p => p.1 == k)).isSome then
    m.map (fun p => if p.1 == k then (k, v) else p)
  else
    m ++ [(k, v)]

/-- The Map.delete operation. -/
def mapDelete {α : Type} (m : List (String × α)) (k : String) :
    List (String × α) :=
  m.filter (fun p => ¬ p.1 == k)

/-- Attribute values the handlers store: strings, numbers and booleans. -/
inductive AttrVal where
  | s (v : String)
  | n (v : Nat)
  | b (v : Bool)
deriving DecidableEq, Repr

/-- OpenTelemetry span status codes. -/
inductive StatusCode where
  | unset
  | ok
  | error
deriving DecidableEq, Repr

/-- A status as passed to `span.setStatus`: a code and an optional message. -/
structure SpanStatus where
  code : StatusCode
  message : Option String
deriving DecidableEq, Repr

/-- The record kept for one span handle: its name, the span id of its parent
context (`none` for a root span), the attribute log, the last status set,
the recorded exception messages, and how many times `end()` was invoked. -/
structure SpanInfo where
  name : String
  parent : Option Nat
  attrs : List (String × AttrVal)
  status : Option SpanStatus
  exceptions : List String
  endCount : Nat
deriving DecidableEq, Repr

/-- The span.setAttribute operation: appended to the log; lookups read the last
binding, matching overwrite semantics. -/
def SpanInfo.setAttr (sp : SpanInfo) (key : String) (v : AttrVal) : SpanInfo :=
  { sp with attrs := sp.attrs ++ [(key, v)] }

/-- The span.setStatus operation: the last status set wins. -/
def SpanInfo.putStatus (sp : SpanInfo) (st : SpanStatus) : SpanInfo :=
  { sp with status := some st }

/-- The span.recordException operation with a fresh Error carrying `msg`. -/
def SpanInfo.recordExc (sp : SpanInfo) (msg : String) : SpanInfo :=
  { sp with exceptions := sp.exceptions ++ [msg] }

/-- The span.end operation: counted, because ending twice is the defect under study. -/
def SpanInfo.endOnce (sp : SpanInfo) : SpanInfo :=
  { sp with endCount := sp.endCount + 1 }

/-- The value an attribute lookup observes: the last binding for the key. -/
def SpanInfo.attr (sp : SpanInfo) (key : String) : Option AttrVal :=
  (sp.attrs.reverse.find? (fun p => p.1 == key)).map (fun p => p.2)

/-- Modify the element at an index, identity when out of range. -/
def listModify {α : Type} (f : α → α) : Nat → List α → List α
  | _, [] => []
  | 0, a :: as => f a :: as
  | n + 1, a :: as => a :: listModify f n as

/-- The tracing backend's allocation log: span id `k` is position `k`. -/
structure Telemetry where
  spans : List SpanInfo
deriving DecidableEq, Repr

/-- The id the next `tracer.startSpan` call will allocate. -/
def Telemetry.nextId (t : Telemetry) : Nat := t.spans.length

/-- The tracer.startSpan call with a name and an optional parent context. -/
def Telemetry.startSpan (t : Telemetry) (name : String) (parent : Option Nat) :
    Telemetry :=
  ⟨t.spans ++ [⟨name, parent, [], none, [], 0⟩]⟩

/-- Apply an in-place span mutation to the record with id `k`. -/
def Telemetry.modifySpan (t : Telemetry) (k : Nat) (f : SpanInfo → SpanInfo) :
    Telemetry :=
  ⟨listModify f k t.spans⟩

def Telemetry.setAttr (t : Telemetry) (k : Nat) (key : String) (v : AttrVal) :
    Telemetry :=
  t.modifySpan k (fun sp => sp.setAttr key v)

def Telemetry.putStatus (t : Telemetry) (k : Nat) (st : SpanStatus) : Telemetry :=
  t.modifySpan k (fun sp => sp.putStatus st)

def Telemetry.recordExc (t : Telemetry) (k : Nat) (msg : String) : Telemetry :=
  t.modifySpan k (fun sp => sp.recordExc msg)

def Telemetry.endSpan (t : Telemetry) (k : Nat) : Telemetry :=
  t.modifySpan k (fun sp => sp.endOnce)

/-- The span record held under id `k`, when allocated. -/
def Telemetry.span? (t : Telemetry) (k : Nat) : Option SpanInfo :=
  t.spans.get? k

/-- How many times `end()` ran on span `k` (zero when unallocated). -/
def Telemetry.endCountOf (t : Telemetry) (k : Nat) : Nat :=
  match t.span? k with
  | some sp => sp.endCount
  | none => 0

/-- The status of span `k`, when allocated and set. -/
def Telemetry.statusOf (t : Telemetry) (k : Nat) : Option SpanStatus :=
  match t.span? k with
  | some sp => sp.status
  | none => none

/-- The stored value of attribute `key` on span `k`. -/
def Telemetry.attrOf (t : Telemetry) (k : Nat) (key : String) : Option AttrVal :=
  match t.span? k with
  | some sp => sp.attr key
  | none => none

/-- The parent context recorded for span `k` at creation. -/
def Telemetry.parentOf (t : Telemetry) (k : Nat) : Option (Option Nat) :=
  (t.span? k).map (fun sp => sp.parent)

/-- The shutdown sweep loop: for each registry entry, mutate its span, end
it, and delete the entry.  `idOf` projects the span id out of a registry value and
`g` is the per-entry mutation the loop body applies.  Returns the telemetry
after the loop together with what remains of the registry (every visited
entry having been deleted). -/
def sweepSpans {β : Type} (idOf : β → Nat) (g : β → SpanInfo → SpanInfo) :
    Telemetry → List (String × β) → Telemetry × List (String × β)
  | tel, [] => (tel, [])
  | tel, (_, v) :: rest => sweepSpans idOf g (tel.modifySpan (idOf v) (g v)) rest

/-- The loop body the orphan sweep applies to a registry value: set an ERROR
status carrying `msg` and end the span. -/
def orphanClose (msg : String) (sp : SpanInfo) : SpanInfo :=
  (sp.putStatus ⟨StatusCode.error, some msg⟩).endOnce

/-- The acknowledgment object every handler returns to the engine. -/
structure Ack where
  cont : Bool
deriving DecidableEq, Repr

/-- Well-formed lifecycle event payloads, one constructor per hook kind, with
exactly the fields the handlers read. -/
inductive Event where
  | userPromptSubmit (session_id prompt cwd : String) (permission_mode : Option String)
  | subagentStart (agent_id agent_type session_id : String)
  | subagentStop (agent_id agent_transcript_path : String)
  | preToolUse (tool_use_id tool_name : String) (tool_input : JsPayload)
      (agent_id : Option String) (session_id : String)
  | postToolUse (tool_use_id : String) (tool_response : JsPayload)
  | postToolUseFailure (tool_use_id : String) (error : Option String)
  | sessionStart (session_id : String)
  | sessionEnd (session_id : String)
  | notification (session_id : String)
  | permissionRequest (session_id : String)
  | preCompact (session_id : String)
  | stop (session_id : String)
  | setup (session_id : String)
deriving DecidableEq, Repr

/-- The span.setAttribute operation where the value may be undefined: the tracing API
drops an attribute whose value is undefined rather than raising. -/
def Telemetry.setAttrOpt (t : Telemetry) (k : Nat) (key : String)
    (v : Option String) : Telemetry :=
  match v with
  | some s => t.setAttr k key (AttrVal.s s)
  | none => t

/-- The body shared by the point-in-time hook handlers of the single-trace and
by-agent modules: open a short-lived span under the session context, record the
event name and session id, and end it immediately. -/
def hookMarkerTel (tel : Telemetry) (sessionSpan : Nat)
    (spanName eventName session_id : String) : Telemetry :=
  let k := tel.nextId
  let t1 := tel.startSpan spanName (some sessionSpan)
  ((t1.setAttr k "hook.event_name" (AttrVal.s eventName)).setAttr k
      "session.id" (AttrVal.s session_id)).endSpan k

namespace SingleTrace

/-- State of the `telemetryHooksSingleTrace` tracker: the span log, the ids of
the root and session spans created at construction, and the two registries. -/
structure State where
  tel : Telemetry
  rootSpan : Nat
  sessionSpan : Nat
  agentSpans : List (String × Nat)
  toolSpans : List (String × Nat)
deriving DecidableEq, Repr

/-- The constructor withAgentTelemetry: creates the root span and ends it
immediately, then creates the session span as a child of the root; that
session span stays open until cleanup.  Both registries start empty. -/
def init : State :=
  let t0 : Telemetry := ⟨[]⟩
  let root := t0.nextId
  let t1 := (t0.startSpan "agent.root" none).endSpan root
  let session := t1.nextId
  let t2 := t1.startSpan "agent.session" (some root)
  ⟨t2, root, session, [], []⟩

/-- One hook invocation of the single-trace module on a well-formed payload of
the matching event kind. -/
def step (s : State) : Event → Ack × State
  | Event.userPromptSubmit session_id prompt cwd permission_mode =>
    let t1 := s.tel.setAttr s.sessionSpan "session.id" (AttrVal.s session_id)
    let t2 := t1.setAttr s.sessionSpan "prompt"
      (AttrVal.s (truncateAttribute prompt MAX_ATTRIBUTE_LENGTH))
    let t3 := t2.setAttr s.sessionSpan "cwd" (AttrVal.s cwd)
    let t4 := t3.setAttr s.sessionSpan "permission_mode"
      (AttrVal.s (permission_mode.getD ""))
    let k := t4.nextId
    let t5 := t4.startSpan "hook.user_prompt_submit" (some s.sessionSpan)
    let t6 := ((t5.setAttr k "hook.event_name" (AttrVal.s "UserPromptSubmit")).setAttr
        k "session.id" (AttrVal.s session_id)).setAttr k "prompt.length"
        (AttrVal.n prompt.length)
    (⟨true⟩, { s with tel := t6.endSpan k })
  | Event.subagentStart agent_id agent_type session_id =>
    let k := s.tel.nextId
    let t1 := s.tel.startSpan ("agent." ++ agent_type) (some s.sessionSpan)
    let t2 := ((t1.setAttr k "agent.id" (AttrVal.s agent_id)).setAttr k
        "agent.type" (AttrVal.s agent_type)).setAttr k "session.id"
        (AttrVal.s session_id)
    (⟨true⟩, { s with tel := t2, agentSpans := mapSet s.agentSpans agent_id k })
  | Event.subagentStop agent_id path =>
    match mapGet s.agentSpans agent_id with
    | some k =>
      let t1 := s.tel.setAttr k "agent.transcript_path" (AttrVal.s path)
      let t2 := (t1.putStatus k ⟨StatusCode.ok, none⟩).endSpan k
      (⟨true⟩, { s with tel := t2, agentSpans := mapDelete s.agentSpans agent_id })
    | none => (⟨true⟩, s)
  | Event.preToolUse tool_use_id tool_name tool_input _agent_id session_id =>
    let parent :=
      match s.agentSpans.getLast? with
      | some p => p.2
      | none => s.sessionSpan
    let k := s.tel.nextId
    let t1 := s.tel.startSpan ("tool." ++ tool_name) (some parent)
    let toolInputStr := stringifyOrCoerce tool_input
    let t2 := (((t1.setAttr k "tool.name" (AttrVal.s tool_name)).setAttr k
        "tool.use_id" (AttrVal.s tool_use_id)).setAttr k "tool.input"
        (AttrVal.s (truncateAttribute toolInputStr MAX_ATTRIBUTE_LENGTH))).setAttr
        k "session.id" (AttrVal.s session_id)
    (⟨true⟩, { s with tel := t2, toolSpans := mapSet s.toolSpans tool_use_id k })
  | Event.postToolUse tool_use_id tool_response =>
    match mapGet s.toolSpans tool_use_id with
    | some k =>
      let responseSize := (stringifyOrCoerce tool_response).length
      let t1 := (s.tel.setAttr k "tool.response.size_bytes"
          (AttrVal.n responseSize)).setAttr k "tool.success" (AttrVal.b true)
      let t2 := (t1.putStatus k ⟨StatusCode.ok, none⟩).endSpan k
      (⟨true⟩, { s with tel := t2, toolSpans := mapDelete s.toolSpans tool_use_id })
    | none => (⟨true⟩, s)
  | Event.postToolUseFailure tool_use_id error =>
    match mapGet s.toolSpans tool_use_id with
    | some k =>
      let errorMessage := errorOrDefault error
      let t1 := (s.tel.setAttr k "tool.success" (AttrVal.b false)).setAttr k
          "tool.error" (AttrVal.s (truncateAttribute errorMessage MAX_ATTRIBUTE_LENGTH))
      let t2 := t1.recordExc k errorMessage
      let t3 := (t2.putStatus k
          ⟨StatusCode.error, some (truncateAttribute errorMessage 256)⟩).endSpan k
      (⟨true⟩, { s with tel := t3, toolSpans := mapDelete s.toolSpans tool_use_id })
    | none => (⟨true⟩, s)
  | Event.sessionStart session_id =>
    (⟨true⟩, { s with tel := hookMarkerTel s.tel s.sessionSpan "hook.session_start" "SessionStart" session_id })
  | Event.sessionEnd session_id =>
    (⟨true⟩, { s with tel := hookMarkerTel s.tel s.sessionSpan "hook.session_end" "SessionEnd" session_id })
  | Event.notification session_id =>
    (⟨true⟩, { s with tel := hookMarkerTel s.tel s.sessionSpan "hook.notification" "Notification" session_id })
  | Event.permissionRequest session_id =>
    (⟨true⟩, { s with tel := hookMarkerTel s.tel s.sessionSpan "hook.permission_request" "PermissionRequest" session_id })
  | Event.preCompact session_id =>
    (⟨true⟩, { s with tel := hookMarkerTel s.tel s.sessionSpan "hook.pre_compact" "PreCompact" session_id })
  | Event.stop session_id =>
    (⟨true⟩, { s with tel := hookMarkerTel s.tel s.sessionSpan "hook.stop" "Stop" session_id })
  | Event.setup session_id =>
    (⟨true⟩, { s with tel := hookMarkerTel s.tel s.sessionSpan "hook.setup" "Setup" session_id })

/-- The cleanup function: orphan-sweep the tool registry, then the agent
registry (both with message "Orphaned span"), then close the session span
with status OK. -/
def cleanup (s : State) : State :=
  let r1 := sweepSpans (fun k => k) (fun _ => orphanClose "Orphaned span")
    s.tel s.toolSpans
  let r2 := sweepSpans (fun k => k) (fun _ => orphanClose "Orphaned span")
    r1.1 s.agentSpans
  let t3 := (r2.1.putStatus s.sessionSpan ⟨StatusCode.ok, none⟩).endSpan s.sessionSpan
  { s with tel := t3, toolSpans := r1.2, agentSpans := r2.2 }

/-- Deliver a sequence of well-formed lifecycle events. -/
def runEvents (evs : List Event) (s : State) : State :=
  evs.foldl (fun st e => (step st e).2) s

/-- The `finally` block of the single-trace entry point:
`telemetry.cleanup(); telemetry.rootSpan.end();`. -/
def mainFinally (s : State) : State :=
  let s1 := cleanup s
  { s1 with tel := s1.tel.endSpan s1.rootSpan }

end SingleTrace

namespace ByAgent

/-- A tool-registry entry of the by-agent module: the span (whose own context
is stored alongside) and the agent id it was correlated with, if any. -/
structure ToolEntry where
  span : Nat
  agentId : Option String
deriving DecidableEq, Repr

/-- State of the `telemetryHooksByAgent` tracker: a session span for non-agent
events, a registry of independent per-agent root traces, the tool registry,
and the current-agent pointer used for tool correlation. -/
structure State where
  tel : Telemetry
  sessionSpan : Nat
  agentTraces : List (String × Nat)
  toolSpans : List (String × ToolEntry)
  currentAgentId : Option String
deriving DecidableEq, Repr

/-- The constructor withAgentTelemetry: creates the session span (a root trace);
registries empty, no current agent. -/
def init : State :=
  let t0 : Telemetry := ⟨[]⟩
  let session := t0.nextId
  ⟨t0.startSpan "session" none, session, [], [], none⟩

/-- One hook invocation of the by-agent module on a well-formed payload of the
matching event kind. -/
def step (s : State) : Event → Ack × State
  | Event.userPromptSubmit session_id prompt cwd permission_mode =>
    let t1 := s.tel.setAttr s.sessionSpan "session.id" (AttrVal.s session_id)
    let t2 := t1.setAttr s.sessionSpan "prompt"
      (AttrVal.s (truncateAttribute prompt MAX_ATTRIBUTE_LENGTH))
    let t3 := t2.setAttr s.sessionSpan "cwd" (AttrVal.s cwd)
    let t4 := t3.setAttr s.sessionSpan "permission_mode"
      (AttrVal.s (permission_mode.getD ""))
    let k := t4.nextId
    let t5 := t4.startSpan "hook.user_prompt_submit" (some s.sessionSpan)
    let t6 := ((t5.setAttr k "hook.event_name" (AttrVal.s "UserPromptSubmit")).setAttr
        k "session.id" (AttrVal.s session_id)).setAttr k "prompt.length"
        (AttrVal.n prompt.length)
    (⟨true⟩, { s with tel := t6.endSpan k })
  | Event.subagentStart agent_id agent_type session_id =>
    let k := s.tel.nextId
    let t1 := s.tel.startSpan ("agent." ++ agent_type) none
    let t2 := ((t1.setAttr k "agent.id" (AttrVal.s agent_id)).setAttr k
        "agent.type" (AttrVal.s agent_type)).setAttr k "session.id"
        (AttrVal.s session_id)
    (⟨true⟩, { s with
        tel := t2,
        agentTraces := mapSet s.agentTraces agent_id k,
        currentAgentId := some agent_id })
  | Event.subagentStop agent_id path =>
    match mapGet s.agentTraces agent_id with
    | some k =>
      let t1 := s.tel.setAttr k "agent.transcript_path" (AttrVal.s path)
      let t2 := (t1.putStatus k ⟨StatusCode.ok, none⟩).endSpan k
      let cur := if s.currentAgentId = some agent_id then none else s.currentAgentId
      (⟨true⟩, { s with
          tel := t2,
          agentTraces := mapDelete s.agentTraces agent_id,
          currentAgentId := cur })
    | none => (⟨true⟩, s)
  | Event.preToolUse tool_use_id tool_name tool_input agent_id _session_id =>
    let agentId := jsOr agent_id s.currentAgentId
    let agentTrace :=
      if isTruthy agentId then mapGet s.agentTraces (agentId.getD "") else none
    let parent :=
      match agentTrace with
      | some k => k
      | none => s.sessionSpan
    let k := s.tel.nextId
    let t1 := s.tel.startSpan ("tool." ++ tool_name) (some parent)
    let toolInputStr := stringifyOrCoerce tool_input
    let t2 := (((t1.setAttr k "tool.name" (AttrVal.s tool_name)).setAttr k
        "tool.use_id" (AttrVal.s tool_use_id)).setAttr k "tool.input"
        (AttrVal.s (truncateAttribute toolInputStr MAX_ATTRIBUTE_LENGTH))).setAttr
        k "session.id" (AttrVal.s _session_id)
    let t3 := if isTruthy agentId then
        t2.setAttr k "agent.id" (AttrVal.s (agentId.getD "")) else t2
    (⟨true⟩, { s with
        tel := t3,
        toolSpans := mapSet s.toolSpans tool_use_id ⟨k, agentId⟩ })
  | Event.postToolUse tool_use_id tool_response =>
    match mapGet s.toolSpans tool_use_id with
    | some entry =>
      let k := entry.span
      let responseSize := (stringifyOrCoerce tool_response).length
      let t1 := (s.tel.setAttr k "tool.response.size_bytes"
          (AttrVal.n responseSize)).setAttr k "tool.success" (AttrVal.b true)
      let t2 := (t1.putStatus k ⟨StatusCode.ok, none⟩).endSpan k
      (⟨true⟩, { s with tel := t2, toolSpans := mapDelete s.toolSpans tool_use_id })
    | none => (⟨true⟩, s)
  | Event.postToolUseFailure tool_use_id error =>
    match mapGet s.toolSpans tool_use_id with
    | some entry =>
      let k := entry.span
      let errorMessage := errorOrDefault error
      let t1 := (s.tel.setAttr k "tool.success" (AttrVal.b false)).setAttr k
          "tool.error" (AttrVal.s (truncateAttribute errorMessage MAX_ATTRIBUTE_LENGTH))
      let t2 := t1.recordExc k errorMessage
      let t3 := (t2.putStatus k
          ⟨StatusCode.error, some (truncateAttribute errorMessage 256)⟩).endSpan k
      (⟨true⟩, { s with tel := t3, toolSpans := mapDelete s.toolSpans tool_use_id })
    | none => (⟨true⟩, s)
  | Event.sessionStart session_id =>
    (⟨true⟩, { s with tel := hookMarkerTel s.tel s.sessionSpan "hook.session_start" "SessionStart" session_id })
  | Event.sessionEnd session_id =>
    (⟨true⟩, { s with tel := hookMarkerTel s.tel s.sessionSpan "hook.session_end" "SessionEnd" session_id })
  | Event.notification session_id =>
    (⟨true⟩, { s with tel := hookMarkerTel s.tel s.sessionSpan "hook.notification" "Notification" session_id })
  | Event.permissionRequest session_id =>
    (⟨true⟩, { s with tel := hookMarkerTel s.tel s.sessionSpan "hook.permission_request" "PermissionRequest" session_id })
  | Event.preCompact session_id =>
    (⟨true⟩, { s with tel := hookMarkerTel s.tel s.sessionSpan "hook.pre_compact" "PreCompact" session_id })
  | Event.stop session_id =>
    (⟨true⟩, { s with tel := hookMarkerTel s.tel s.sessionSpan "hook.stop" "Stop" session_id })
  | Event.setup session_id =>
    (⟨true⟩, { s with tel := hookMarkerTel s.tel s.sessionSpan "hook.setup" "Setup" session_id })

/-- The cleanup function: orphan-sweep the tool registry (message "Orphaned span"),
then the agent-trace registry (message "Orphaned agent trace").  The session
span is not touched. -/
def cleanup (s : State) : State :=
  let r1 := sweepSpans (fun e => e.span) (fun _ => orphanClose "Orphaned span")
    s.tel s.toolSpans
  let r2 := sweepSpans (fun k => k) (fun _ => orphanClose "Orphaned agent trace")
    r1.1 s.agentTraces
  { s with tel := r2.1, toolSpans := r1.2, agentTraces := r2.2 }

/-- Deliver a sequence of well-formed lifecycle events. -/
def runEvents (evs : List Event) (s : State) : State :=
  evs.foldl (fun st e => (step st e).2) s

end ByAgent

namespace IndividualTraces

/-- A registry entry of the individual-traces module: the span and the
wall-clock start timestamp captured for duration computation. -/
structure SpanData where
  span : Nat
  startTime : Nat
deriving DecidableEq, Repr

/-- State of the `telemetryHooksIndividualTraces` tracker: no session span at
all; just the two registries over the span log. -/
structure State where
  tel : Telemetry
  agentSpans : List (String × SpanData)
  toolSpans : List (String × SpanData)
deriving DecidableEq, Repr

/-- The constructor withAgentTelemetry: no construction-time spans. -/
def init : State := ⟨⟨[]⟩, [], []⟩

/-- A point-in-time marker of this module: an independent root span carrying
the session id, status OK, ended immediately. -/
def rootMarker (tel : Telemetry) (spanName session_id : String) : Telemetry :=
  let k := tel.nextId
  let t1 := tel.startSpan spanName none
  ((t1.setAttr k "session.id" (AttrVal.s session_id)).putStatus k
      ⟨StatusCode.ok, none⟩).endSpan k

/-- One hook invocation of the individual-traces module on a well-formed
payload; `now` is the `Date.now()` reading the handler takes. -/
def step (now : Nat) (s : State) : Event → Ack × State
  | Event.userPromptSubmit session_id prompt cwd permission_mode =>
    let k := s.tel.nextId
    let t1 := s.tel.startSpan "user_prompt_submit" none
    let t2 := ((((t1.setAttr k "session.id" (AttrVal.s session_id)).setAttr k
        "prompt" (AttrVal.s (truncateAttribute prompt MAX_ATTRIBUTE_LENGTH))).setAttr
        k "prompt.length" (AttrVal.n prompt.length)).setAttr k "cwd"
        (AttrVal.s cwd)).setAttr k "permission_mode"
        (AttrVal.s (permission_mode.getD ""))
    (⟨true⟩, { s with tel := (t2.putStatus k ⟨StatusCode.ok, none⟩).endSpan k })
  | Event.subagentStart agent_id agent_type session_id =>
    let k := s.tel.nextId
    let t1 := s.tel.startSpan ("agent." ++ agent_type) none
    let t2 := ((t1.setAttr k "agent.id" (AttrVal.s agent_id)).setAttr k
        "agent.type" (AttrVal.s agent_type)).setAttr k "session.id"
        (AttrVal.s session_id)
    (⟨true⟩, { s with
        tel := t2,
        agentSpans := mapSet s.agentSpans agent_id ⟨k, now⟩ })
  | Event.subagentStop agent_id path =>
    match mapGet s.agentSpans agent_id with
    | some d =>
      let k := d.span
      let duration := now - d.startTime
      let t1 := (s.tel.setAttr k "agent.transcript_path" (AttrVal.s path)).setAttr
        k "duration_ms" (AttrVal.n duration)
      let t2 := (t1.putStatus k ⟨StatusCode.ok, none⟩).endSpan k
      (⟨true⟩, { s with tel := t2, agentSpans := mapDelete s.agentSpans agent_id })
    | none => (⟨true⟩, s)
  | Event.preToolUse tool_use_id tool_name tool_input _agent_id session_id =>
    let k := s.tel.nextId
    let t1 := s.tel.startSpan ("tool." ++ tool_name) none
    let toolInputStr := stringifyOrCoerce tool_input
    let t2 := (((t1.setAttr k "tool.name" (AttrVal.s tool_name)).setAttr k
        "tool.use_id" (AttrVal.s tool_use_id)).setAttr k "tool.input"
        (AttrVal.s (truncateAttribute toolInputStr MAX_ATTRIBUTE_LENGTH))).setAttr
        k "session.id" (AttrVal.s session_id)
    (⟨true⟩, { s with
        tel := t2,
        toolSpans := mapSet s.toolSpans tool_use_id ⟨k, now⟩ })
  | Event.postToolUse tool_use_id tool_response =>
    match mapGet s.toolSpans tool_use_id with
    | some d =>
      let k := d.span
      let duration := now - d.startTime
      let responseSize := (stringifyOrCoerce tool_response).length
      let t1 := ((s.tel.setAttr k "duration_ms" (AttrVal.n duration)).setAttr k
          "tool.response.size_bytes" (AttrVal.n responseSize)).setAttr k
          "tool.success" (AttrVal.b true)
      let t2 := (t1.putStatus k ⟨StatusCode.ok, none⟩).endSpan k
      (⟨true⟩, { s with tel := t2, toolSpans := mapDelete s.toolSpans tool_use_id })
    | none => (⟨true⟩, s)
  | Event.postToolUseFailure tool_use_id _error =>
    match mapGet s.toolSpans tool_use_id with
    | some d =>
      let k := d.span
      let duration := now - d.startTime
      let t1 := (s.tel.setAttr k "duration_ms" (AttrVal.n duration)).setAttr k
          "tool.success" (AttrVal.b false)
      let t2 := (t1.putStatus k
          ⟨StatusCode.error, some "Tool execution failed"⟩).endSpan k
      (⟨true⟩, { s with tel := t2, toolSpans := mapDelete s.toolSpans tool_use_id })
    | none => (⟨true⟩, s)
  | Event.sessionStart session_id =>
    (⟨true⟩, { s with tel := rootMarker s.tel "session_start" session_id })
  | Event.sessionEnd session_id =>
    (⟨true⟩, { s with tel := rootMarker s.tel "session_end" session_id })
  | Event.notification session_id =>
    (⟨true⟩, { s with tel := rootMarker s.tel "notification" session_id })
  | Event.permissionRequest session_id =>
    (⟨true⟩, { s with tel := rootMarker s.tel "permission_request" session_id })
  | Event.preCompact session_id =>
    (⟨true⟩, { s with tel := rootMarker s.tel "pre_compact" session_id })
  | Event.stop session_id =>
    (⟨true⟩, { s with tel := rootMarker s.tel "stop" session_id })
  | Event.setup session_id =>
    (⟨true⟩, { s with tel := rootMarker s.tel "setup" session_id })

/-- The cleanup function: orphan-sweep both registries with message "Orphaned span",
recording each orphan's duration; `now` is the `Date.now()` reading. -/
def cleanup (now : Nat) (s : State) : State :=
  let g := fun (v : SpanData) (sp : SpanInfo) =>
    orphanClose "Orphaned span" (sp.setAttr "duration_ms" (AttrVal.n (now - v.startTime)))
  let r1 := sweepSpans (fun v => v.span) g s.tel s.toolSpans
  let r2 := sweepSpans (fun v => v.span) g r1.1 s.agentSpans
  { s with tel := r2.1, toolSpans := r1.2, agentSpans := r2.2 }

/-- Deliver a sequence of timestamped well-formed lifecycle events. -/
def runEvents (tevs : List (Nat × Event)) (s : State) : State :=
  tevs.foldl (fun st te => (step te.1 st te.2).2) s

end IndividualTraces

/-- A JavaScript runtime exception escaping a handler. -/
inductive JsError where
  | typeError (msg : String)
deriving DecidableEq, Repr

/-- Reading value.length on a possibly-undefined JavaScript value: the
property of `undefined` throws a TypeError. -/
def jsLength (value : Option String) : Except JsError Nat :=
  match value with
  | none => Except.error (JsError.typeError "Cannot read properties of undefined")
  | some v => Except.ok v.length

/-- The function truncateAttribute as invoked on a possibly-undefined JavaScript
value: the first statement of its body reads `value.length` and throws when
the argument is `undefined`. -/
def truncateAttributeJS (value : Option String) (maxLength : Nat) :
    Except JsError String :=
  match value with
  | none => Except.error (JsError.typeError "Cannot read properties of undefined")
  | some v => Except.ok (truncateAttribute v maxLength)

/-- A raw `UserPromptSubmit` payload, as delivered by the external engine:
any field other than the event name may be absent. -/
structure RawUserPromptInput where
  hook_event_name : String
  session_id : Option String
  prompt : Option String
  cwd : Option String
  permission_mode : Option String
deriving DecidableEq, Repr

/-- The `UserPromptSubmit` handler of the single-trace module translated over
raw payloads with JavaScript exception behaviour: `truncateAttribute(input.prompt)`
and `input.prompt.length` read `.length` of the `prompt` field and throw when
it is absent. -/
def SingleTrace.userPromptSubmitRaw (s : SingleTrace.State)
    (input : RawUserPromptInput) : Except JsError (Ack × SingleTrace.State) :=
  if input.hook_event_name = "UserPromptSubmit" then do
    let t1 := s.tel.setAttrOpt s.sessionSpan "session.id" input.session_id
    let truncated ← truncateAttributeJS input.prompt MAX_ATTRIBUTE_LENGTH
    let t2 := t1.setAttr s.sessionSpan "prompt" (AttrVal.s truncated)
    let t3 := t2.setAttrOpt s.sessionSpan "cwd" input.cwd
    let t4 := t3.setAttr s.sessionSpan "permission_mode"
      (AttrVal.s (input.permission_mode.getD ""))
    let k := t4.nextId
    let t5 := t4.startSpan "hook.user_prompt_submit" (some s.sessionSpan)
    let promptLen ← jsLength input.prompt
    let t6 := ((t5.setAttr k "hook.event_name"
        (AttrVal.s "UserPromptSubmit")).setAttrOpt k "session.id"
        input.session_id).setAttr k "prompt.length" (AttrVal.n promptLen)
    Except.ok (⟨true⟩, { s with tel := t6.endSpan k })
  else
    Except.ok (⟨true⟩, s)

/-- The parent-resolution rule exactly as the specification claims it for tool
pre-use: the explicitly supplied agent id when it is present in the agent
registry, otherwise the implicit current open agent's context, otherwise the
session-level context. -/
def claimedResolveParent (explicitId : Option String)
    (reg : List (String × Nat)) (current : Option String) (session : Nat) : Nat :=
  match explicitId.bind (fun eid => mapGet reg eid) with
  | some k => k
  | none =>
    match current.bind (fun cid => mapGet reg cid) with
    | some k => k
    | none => session

/-- The amended parent-resolution rule for the by-agent module: the explicit
agent id's trace context when that id is truthy and present in the registry;
the session context when a truthy explicit id is supplied but absent; otherwise
the current-agent pointer's trace context when it is truthy and present, else
the session context. -/
def amendedResolveByAgent (explicitId current : Option String)
    (reg : List (String × Nat)) (session : Nat) : Nat :=
  if isTruthy explicitId then
    match mapGet reg (explicitId.getD "") with
    | some k => k
    | none => session
  else if isTruthy current then
    match mapGet reg (current.getD "") with
    | some k => k
    | none => session
  else session

/-- The amended parent-resolution rule for the single-trace module: the
explicit agent id is ignored entirely; the parent is the most recently started
still-open agent span, else the session span. -/
def amendedResolveSingleTrace (reg : List (String × Nat)) (session : Nat) : Nat :=
  match reg.getLast? with
  | some p => p.2
  | none => session

theorem listModify_get?_self {α : Type} (f : α → α) (l : List α) (k : Nat) :
    (listModify f k l).get? k = (l.get? k).map f := by
  induction l generalizing k with
  | nil => simp [listModify]
  | cons a as ih =>
    cases k with
    | zero => simp [listModify]
    | succ n => simpa [listModify] using ih n

theorem listModify_get?_ne {α : Type} (f : α → α) (l : List α) {i k : Nat}
    (h : i ≠ k) : (listModify f k l).get? i = l.get? i := by
  induction l generalizing i k with
  | nil => simp [listModify]
  | cons a as ih =>
    cases k with
    | zero =>
      cases i with
      | zero => exact absurd rfl h
      | succ j => simp [listModify]
    | succ n =>
      cases i with
      | zero => simp [listModify]
      | succ j =>
        simpa [listModify] using ih (k := n) (by omega)

theorem Telemetry.span?_modify_self (t : Telemetry) (k : Nat)
    (f : SpanInfo → SpanInfo) : (t.modifySpan k f).span? k = (t.span? k).map f :=
  listModify_get?_self f t.spans k

theorem Telemetry.span?_modify_ne (t : Telemetry) {i k : Nat}
    (f : SpanInfo → SpanInfo) (h : i ≠ k) :
    (t.modifySpan k f).span? i = t.span? i :=
  listModify_get?_ne f t.spans h

theorem Telemetry.span?_startSpan_old (t : Telemetry) {i : Nat}
    (h : i < t.spans.length) (name : String) (parent : Option Nat) :
    (t.startSpan name parent).span? i = t.span? i := by
  simp [Telemetry.startSpan, Telemetry.span?, List.getElem?_append_left h]

theorem Telemetry.span?_startSpan_new (t : Telemetry) (name : String)
    (parent : Option Nat) :
    (t.startSpan name parent).span? t.nextId = some ⟨name, parent, [], none, [], 0⟩ := by
  simp [Telemetry.startSpan, Telemetry.span?, Telemetry.nextId]

theorem sweepSpans_snd {β : Type} (idOf : β → Nat) (g : β → SpanInfo → SpanInfo)
    (tel : Telemetry) (reg : List (String × β)) :
    (sweepSpans idOf g tel reg).2 = [] := by
  induction reg generalizing tel with
  | nil => rfl
  | cons p rest ih =>
    obtain ⟨id, v⟩ := p
    simpa [sweepSpans] using ih _

theorem sweepSpans_span?_notMem {β : Type} {idOf : β → Nat}
    {g : β → SpanInfo → SpanInfo} {tel : Telemetry} {reg : List (String × β)}
    {k : Nat} (h : k ∉ reg.map (fun p => idOf p.2)) :
    (sweepSpans idOf g tel reg).1.span? k = tel.span? k := by
  induction reg generalizing tel with
  | nil => rfl
  | cons p rest ih =>
    obtain ⟨id, v⟩ := p
    simp only [List.map_cons, List.mem_cons, not_or] at h
    rw [sweepSpans, ih h.2]
    exact Telemetry.span?_modify_ne _ _ h.1

theorem sweepSpans_prop {β : Type} {idOf : β → Nat}
    {g : β → SpanInfo → SpanInfo} (P : SpanInfo → Prop)
    (hg : ∀ v sp, P (g v sp)) :
    ∀ (tel : Telemetry) (reg : List (String × β)) (k : Nat) (sp' : SpanInfo),
    k ∈ reg.map (fun p => idOf p.2) →
    (sweepSpans idOf g tel reg).1.span? k = some sp' → P sp' := by
  intro tel reg
  induction reg generalizing tel with
  | nil => intro k sp' h; simp at h
  | cons p rest ih =>
    intro k sp' hmem hsp
    obtain ⟨id, v⟩ := p
    by_cases hk : k ∈ rest.map (fun p => idOf p.2)
    · rw [sweepSpans] at hsp
      exact ih _ k sp' hk hsp
    · have hkv : idOf v = k := by
        simp only [List.map_cons, List.mem_cons] at hmem
        tauto
      rw [sweepSpans, sweepSpans_span?_notMem hk, hkv,
        Telemetry.span?_modify_self] at hsp
      cases htel : tel.span? k with
      | none => rw [htel] at hsp; simp at hsp
      | some sp0 =>
        rw [htel] at hsp
        simp only [Option.map_some'] at hsp
        rw [← Option.some_inj.mp hsp]
        exact hg v sp0

theorem SpanInfo.attr_setAttr_self (sp : SpanInfo) (key : String) (v : AttrVal) :
    (sp.setAttr key v).attr key = some v := by
  simp [SpanInfo.attr, SpanInfo.setAttr]

theorem SpanInfo.attr_setAttr_ne (sp : SpanInfo) {key key2 : String}
    (v : AttrVal) (h : key2 ≠ key) : (sp.setAttr key2 v).attr key = sp.attr key := by
  simp [SpanInfo.attr, SpanInfo.setAttr, List.find?_cons, h]

set_option maxRecDepth 4000

/-- C7: for any string-valued payload attribute, `truncateAttribute` leaves a
string of length at most 10000 unchanged and maps a longer one to its first
10000 characters followed by the literal suffix "... [truncated]"; the
single-trace tool handler stores exactly this truncation as `tool.input`. -/
theorem c7_truncation_policy (v : String) :
    (10000 < v.length →
      truncateAttribute v MAX_ATTRIBUTE_LENGTH =
        String.mk (v.data.take 10000) ++ "... [truncated]") ∧
    (v.length ≤ 10000 → truncateAttribute v MAX_ATTRIBUTE_LENGTH = v) ∧
    (∀ (s : SingleTrace.State) (uid name sid : String) (p : JsPayload)
      (aid : Option String),
      ((SingleTrace.step s (Event.preToolUse uid name p aid sid)).2).tel.attrOf
          s.tel.nextId "tool.input" =
        some (AttrVal.s (truncateAttribute (stringifyOrCoerce p) MAX_ATTRIBUTE_LENGTH))) := by
  refine ⟨?_, ?_, ?_⟩
  · intro h
    rw [truncateAttribute, if_neg (by simp [MAX_ATTRIBUTE_LENGTH]; omega)]
    rfl
  · intro h
    rw [truncateAttribute, if_pos (by simpa [MAX_ATTRIBUTE_LENGTH] using h)]
  · intro s uid name sid p aid
    rw [SingleTrace.step]
    simp only [Telemetry.attrOf, Telemetry.setAttr, Telemetry.span?_modify_self,
      Telemetry.span?_startSpan_new, Option.map_map]
    simp [SpanInfo.setAttr, SpanInfo.attr]

/-- C7 witness: a 10001-character string is truncated to its first 10000
characters plus the marker; a short string is stored unchanged. -/
theorem c7_truncation_policy_witness :
    truncateAttribute (String.mk (List.replicate 10001 'a')) MAX_ATTRIBUTE_LENGTH =
      String.mk (List.replicate 10000 'a') ++ "... [truncated]" ∧
    truncateAttribute "abc" MAX_ATTRIBUTE_LENGTH = "abc" := by
  constructor
  · have hlen : (String.mk (List.replicate 10001 'a')).length = 10001 := by
      rw [String.length]
      exact List.length_replicate 10001 'a'
    rw [(c7_truncation_policy (String.mk (List.replicate 10001 'a'))).1
      (by rw [hlen]; omega)]
    rw [List.take_replicate]
    norm_num
  · exact (c7_truncation_policy "abc").2.1 (by decide)

theorem SingleTrace.stSpanPostToolUseFailure (s : SingleTrace.State) (id : String)
    (err : Option String) (k : Nat) (sp : SpanInfo)
    (h1 : mapGet s.toolSpans id = some k) (h2 : s.tel.span? k = some sp) :
    ((SingleTrace.step s (Event.postToolUseFailure id err)).2).tel.span? k =
      some ((((sp.setAttr "tool.success" (AttrVal.b false)).setAttr "tool.error"
          (AttrVal.s (truncateAttribute (errorOrDefault err) MAX_ATTRIBUTE_LENGTH))).recordExc
          (errorOrDefault err)).putStatus
          ⟨StatusCode.error, some (truncateAttribute (errorOrDefault err) 256)⟩).endOnce ∧
    ((SingleTrace.step s (Event.postToolUseFailure id err)).2).toolSpans =
      mapDelete s.toolSpans id ∧
    ((SingleTrace.step s (Event.postToolUseFailure id err)).2).agentSpans =
      s.agentSpans := by
  rw [SingleTrace.step, h1]
  simp only [Telemetry.setAttr, Telemetry.putStatus, Telemetry.recordExc,
    Telemetry.endSpan, Telemetry.span?_modify_self, h2, Option.map_map,
    Option.map_some']
  exact ⟨trivial, trivial, trivial⟩

theorem SingleTrace.stSpanPostToolUse (s : SingleTrace.State) (id : String)
    (resp : JsPayload) (k : Nat) (sp : SpanInfo)
    (h1 : mapGet s.toolSpans id = some k) (h2 : s.tel.span? k = some sp) :
    ((SingleTrace.step s (Event.postToolUse id resp)).2).tel.span? k =
      some (((sp.setAttr "tool.response.size_bytes"
          (AttrVal.n (stringifyOrCoerce resp).length)).setAttr "tool.success"
          (AttrVal.b true)).putStatus ⟨StatusCode.ok, none⟩).endOnce ∧
    ((SingleTrace.step s (Event.postToolUse id resp)).2).toolSpans =
      mapDelete s.toolSpans id ∧
    ((SingleTrace.step s (Event.postToolUse id resp)).2).agentSpans =
      s.agentSpans := by
  rw [SingleTrace.step, h1]
  simp only [Telemetry.setAttr, Telemetry.putStatus, Telemetry.endSpan,
    Telemetry.span?_modify_self, h2, Option.map_map, Option.map_some']
  exact ⟨trivial, trivial, trivial⟩

theorem SingleTrace.stSpanSubagentStop (s : SingleTrace.State) (id path : String)
    (k : Nat) (sp : SpanInfo)
    (h1 : mapGet s.agentSpans id = some k) (h2 : s.tel.span? k = some sp) :
    ((SingleTrace.step s (Event.subagentStop id path)).2).tel.span? k =
      some ((sp.setAttr "agent.transcript_path" (AttrVal.s path)).putStatus
          ⟨StatusCode.ok, none⟩).endOnce ∧
    ((SingleTrace.step s (Event.subagentStop id path)).2).agentSpans =
      mapDelete s.agentSpans id ∧
    ((SingleTrace.step s (Event.subagentStop id path)).2).toolSpans =
      s.toolSpans := by
  rw [SingleTrace.step, h1]
  simp only [Telemetry.setAttr, Telemetry.putStatus, Telemetry.endSpan,
    Telemetry.span?_modify_self, h2, Option.map_map, Option.map_some']
  exact ⟨trivial, trivial, trivial⟩

theorem ByAgent.baSpanPostToolUseFailure (s : ByAgent.State) (id : String)
    (err : Option String) (e : ByAgent.ToolEntry) (sp : SpanInfo)
    (h1 : mapGet s.toolSpans id = some e) (h2 : s.tel.span? e.span = some sp) :
    ((ByAgent.step s (Event.postToolUseFailure id err)).2).tel.span? e.span =
      some ((((sp.setAttr "tool.success" (AttrVal.b false)).setAttr "tool.error"
          (AttrVal.s (truncateAttribute (errorOrDefault err) MAX_ATTRIBUTE_LENGTH))).recordExc
          (errorOrDefault err)).putStatus
          ⟨StatusCode.error, some (truncateAttribute (errorOrDefault err) 256)⟩).endOnce ∧
    ((ByAgent.step s (Event.postToolUseFailure id err)).2).toolSpans =
      mapDelete s.toolSpans id ∧
    ((ByAgent.step s (Event.postToolUseFailure id err)).2).agentTraces =
      s.agentTraces := by
  rw [ByAgent.step, h1]
  simp only [Telemetry.setAttr, Telemetry.putStatus, Telemetry.recordExc,
    Telemetry.endSpan, Telemetry.span?_modify_self, h2, Option.map_map,
    Option.map_some']
  exact ⟨trivial, trivial, trivial⟩

theorem ByAgent.baSpanPostToolUse (s : ByAgent.State) (id : String)
    (resp : JsPayload) (e : ByAgent.ToolEntry) (sp : SpanInfo)
    (h1 : mapGet s.toolSpans id = some e) (h2 : s.tel.span? e.span = some sp) :
    ((ByAgent.step s (Event.postToolUse id resp)).2).tel.span? e.span =
      some (((sp.setAttr "tool.response.size_bytes"
          (AttrVal.n (stringifyOrCoerce resp).length)).setAttr "tool.success"
          (AttrVal.b true)).putStatus ⟨StatusCode.ok, none⟩).endOnce ∧
    ((ByAgent.step s (Event.postToolUse id resp)).2).toolSpans =
      mapDelete s.toolSpans id ∧
    ((ByAgent.step s (Event.postToolUse id resp)).2).agentTraces =
      s.agentTraces := by
  rw [ByAgent.step, h1]
  simp only [Telemetry.setAttr, Telemetry.putStatus, Telemetry.endSpan,
    Telemetry.span?_modify_self, h2, Option.map_map, Option.map_some']
  exact ⟨trivial, trivial, trivial⟩

theorem ByAgent.baSpanSubagentStop (s : ByAgent.State) (id path : String)
    (k : Nat) (sp : SpanInfo)
    (h1 : mapGet s.agentTraces id = some k) (h2 : s.tel.span? k = some sp) :
    ((ByAgent.step s (Event.subagentStop id path)).2).tel.span? k =
      some ((sp.setAttr "agent.transcript_path" (AttrVal.s path)).putStatus
          ⟨StatusCode.ok, none⟩).endOnce ∧
    ((ByAgent.step s (Event.subagentStop id path)).2).agentTraces =
      mapDelete s.agentTraces id ∧
    ((ByAgent.step s (Event.subagentStop id path)).2).toolSpans =
      s.toolSpans := by
  rw [ByAgent.step, h1]
  simp only [Telemetry.setAttr, Telemetry.putStatus, Telemetry.endSpan,
    Telemetry.span?_modify_self, h2, Option.map_map, Option.map_some']
  exact ⟨trivial, trivial, trivial⟩

theorem IndividualTraces.itSpanPostToolUseFailure (now : Nat)
    (s : IndividualTraces.State) (id : String) (err : Option String)
    (d : IndividualTraces.SpanData) (sp : SpanInfo)
    (h1 : mapGet s.toolSpans id = some d) (h2 : s.tel.span? d.span = some sp) :
    ((IndividualTraces.step now s (Event.postToolUseFailure id err)).2).tel.span? d.span =
      some (((sp.setAttr "duration_ms" (AttrVal.n (now - d.startTime))).setAttr
          "tool.success" (AttrVal.b false)).putStatus
          ⟨StatusCode.error, some "Tool execution failed"⟩).endOnce ∧
    ((IndividualTraces.step now s (Event.postToolUseFailure id err)).2).toolSpans =
      mapDelete s.toolSpans id ∧
    ((IndividualTraces.step now s (Event.postToolUseFailure id err)).2).agentSpans =
      s.agentSpans := by
  rw [IndividualTraces.step, h1]
  simp only [Telemetry.setAttr, Telemetry.putStatus, Telemetry.endSpan,
    Telemetry.span?_modify_self, h2, Option.map_map, Option.map_some']
  exact ⟨trivial, trivial, trivial⟩

theorem IndividualTraces.itSpanPostToolUse (now : Nat)
    (s : IndividualTraces.State) (id : String) (resp : JsPayload)
    (d : IndividualTraces.SpanData) (sp : SpanInfo)
    (h1 : mapGet s.toolSpans id = some d) (h2 : s.tel.span? d.span = some sp) :
    ((IndividualTraces.step now s (Event.postToolUse id resp)).2).tel.span? d.span =
      some ((((sp.setAttr "duration_ms" (AttrVal.n (now - d.startTime))).setAttr
          "tool.response.size_bytes" (AttrVal.n (stringifyOrCoerce resp).length)).setAttr
          "tool.success" (AttrVal.b true)).putStatus ⟨StatusCode.ok, none⟩).endOnce ∧
    ((IndividualTraces.step now s (Event.postToolUse id resp)).2).toolSpans =
      mapDelete s.toolSpans id ∧
    ((IndividualTraces.step now s (Event.postToolUse id resp)).2).agentSpans =
      s.agentSpans := by
  rw [IndividualTraces.step, h1]
  simp only [Telemetry.setAttr, Telemetry.putStatus, Telemetry.endSpan,
    Telemetry.span?_modify_self, h2, Option.map_map, Option.map_some']
  exact ⟨trivial, trivial, trivial⟩

theorem IndividualTraces.itSpanSubagentStop (now : Nat)
    (s : IndividualTraces.State) (id path : String)
    (d : IndividualTraces.SpanData) (sp : SpanInfo)
    (h1 : mapGet s.agentSpans id = some d) (h2 : s.tel.span? d.span = some sp) :
    ((IndividualTraces.step now s (Event.subagentStop id path)).2).tel.span? d.span =
      some (((sp.setAttr "agent.transcript_path" (AttrVal.s path)).setAttr
          "duration_ms" (AttrVal.n (now - d.startTime))).putStatus
          ⟨StatusCode.ok, none⟩).endOnce ∧
    ((IndividualTraces.step now s (Event.subagentStop id path)).2).agentSpans =
      mapDelete s.agentSpans id ∧
    ((IndividualTraces.step now s (Event.subagentStop id path)).2).toolSpans =
      s.toolSpans := by
  rw [IndividualTraces.step, h1]
  simp only [Telemetry.setAttr, Telemetry.putStatus, Telemetry.endSpan,
    Telemetry.span?_modify_self, h2, Option.map_map, Option.map_some']
  exact ⟨trivial, trivial, trivial⟩

/-- C10: in the tool-failure path of the single-trace and by-agent modules,
the ERROR status message attached to the tool span is the error message
truncated with a 256-character cap, while the `tool.error` attribute on the
same span is truncated with the 10000-character cap: two different caps apply
to the same error string. -/
theorem c10_dual_truncation_caps (s : SingleTrace.State) (sb : ByAgent.State)
    (id idb : String) (err errb : Option String) (k : Nat) (sp : SpanInfo)
    (e : ByAgent.ToolEntry) (spb : SpanInfo)
    (h1 : mapGet s.toolSpans id = some k) (h2 : s.tel.span? k = some sp)
    (h3 : mapGet sb.toolSpans idb = some e) (h4 : sb.tel.span? e.span = some spb) :
    (((SingleTrace.step s (Event.postToolUseFailure id err)).2).tel.statusOf k =
        some ⟨StatusCode.error, some (truncateAttribute (errorOrDefault err) 256)⟩ ∧
      ((SingleTrace.step s (Event.postToolUseFailure id err)).2).tel.attrOf k "tool.error" =
        some (AttrVal.s (truncateAttribute (errorOrDefault err) MAX_ATTRIBUTE_LENGTH))) ∧
    (((ByAgent.step sb (Event.postToolUseFailure idb errb)).2).tel.statusOf e.span =
        some ⟨StatusCode.error, some (truncateAttribute (errorOrDefault errb) 256)⟩ ∧
      ((ByAgent.step sb (Event.postToolUseFailure idb errb)).2).tel.attrOf e.span "tool.error" =
        some (AttrVal.s (truncateAttribute (errorOrDefault errb) MAX_ATTRIBUTE_LENGTH))) := by
  obtain ⟨hs, -, -⟩ := SingleTrace.stSpanPostToolUseFailure s id err k sp h1 h2
  obtain ⟨hb, -, -⟩ := ByAgent.baSpanPostToolUseFailure sb idb errb e spb h3 h4
  refine ⟨⟨?_, ?_⟩, ?_, ?_⟩
  · simp [Telemetry.statusOf, hs, SpanInfo.endOnce, SpanInfo.putStatus]
  · simp [Telemetry.attrOf, hs, SpanInfo.endOnce, SpanInfo.putStatus,
      SpanInfo.recordExc, SpanInfo.setAttr, SpanInfo.attr]
  · simp [Telemetry.statusOf, hb, SpanInfo.endOnce, SpanInfo.putStatus]
  · simp [Telemetry.attrOf, hb, SpanInfo.endOnce, SpanInfo.putStatus,
      SpanInfo.recordExc, SpanInfo.setAttr, SpanInfo.attr]

/-- C10 witness: a concrete failed tool call with error "boom" in both
modules, exercising both caps. -/
theorem c10_dual_truncation_caps_witness :
    (((SingleTrace.step
        (SingleTrace.runEvents [Event.preToolUse "U1" "Bash" ⟨true, "x", "y"⟩ none "S1"] SingleTrace.init)
        (Event.postToolUseFailure "U1" (some "boom"))).2).tel.statusOf 2 =
        some ⟨StatusCode.error, some (truncateAttribute (errorOrDefault (some "boom")) 256)⟩ ∧
      ((SingleTrace.step
        (SingleTrace.runEvents [Event.preToolUse "U1" "Bash" ⟨true, "x", "y"⟩ none "S1"] SingleTrace.init)
        (Event.postToolUseFailure "U1" (some "boom"))).2).tel.attrOf 2 "tool.error" =
        some (AttrVal.s (truncateAttribute (errorOrDefault (some "boom")) MAX_ATTRIBUTE_LENGTH))) ∧
    (((ByAgent.step
        (ByAgent.runEvents [Event.preToolUse "U1" "Bash" ⟨true, "x", "y"⟩ none "S1"] ByAgent.init)
        (Event.postToolUseFailure "U1" (some "boom"))).2).tel.statusOf
          (ByAgent.ToolEntry.mk 1 none).span =
        some ⟨StatusCode.error, some (truncateAttribute (errorOrDefault (some "boom")) 256)⟩ ∧
      ((ByAgent.step
        (ByAgent.runEvents [Event.preToolUse "U1" "Bash" ⟨true, "x", "y"⟩ none "S1"] ByAgent.init)
        (Event.postToolUseFailure "U1" (some "boom"))).2).tel.attrOf
          (ByAgent.ToolEntry.mk 1 none).span "tool.error" =
        some (AttrVal.s (truncateAttribute (errorOrDefault (some "boom")) MAX_ATTRIBUTE_LENGTH))) :=
  c10_dual_truncation_caps
    (SingleTrace.runEvents [Event.preToolUse "U1" "Bash" ⟨true, "x", "y"⟩ none "S1"] SingleTrace.init)
    (ByAgent.runEvents [Event.preToolUse "U1" "Bash" ⟨true, "x", "y"⟩ none "S1"] ByAgent.init)
    "U1" "U1" (some "boom") (some "boom") 2 _ ⟨1, none⟩ _
    (by decide) rfl (by decide) rfl

/-- C9: a stop/complete/fail event whose id is not in the relevant registry
changes no tracker state (registries, current-agent pointer and span log are
all unchanged) and raises no error, in all three modules. -/
theorem c9_unknown_id_noop (s : SingleTrace.State) (sb : ByAgent.State)
    (now : Nat) (si : IndividualTraces.State) (id path : String)
    (resp : JsPayload) (err : Option String)
    (ha : mapGet s.agentSpans id = none) (ht : mapGet s.toolSpans id = none)
    (hba : mapGet sb.agentTraces id = none) (hbt : mapGet sb.toolSpans id = none)
    (hia : mapGet si.agentSpans id = none) (hit : mapGet si.toolSpans id = none) :
    SingleTrace.step s (Event.subagentStop id path) = (⟨true⟩, s) ∧
    SingleTrace.step s (Event.postToolUse id resp) = (⟨true⟩, s) ∧
    SingleTrace.step s (Event.postToolUseFailure id err) = (⟨true⟩, s) ∧
    ByAgent.step sb (Event.subagentStop id path) = (⟨true⟩, sb) ∧
    ByAgent.step sb (Event.postToolUse id resp) = (⟨true⟩, sb) ∧
    ByAgent.step sb (Event.postToolUseFailure id err) = (⟨true⟩, sb) ∧
    IndividualTraces.step now si (Event.subagentStop id path) = (⟨true⟩, si) ∧
    IndividualTraces.step now si (Event.postToolUse id resp) = (⟨true⟩, si) ∧
    IndividualTraces.step now si (Event.postToolUseFailure id err) = (⟨true⟩, si) := by
  refine ⟨?_, ?_, ?_, ?_, ?_, ?_, ?_, ?_, ?_⟩
  · rw [SingleTrace.step, ha]
  · rw [SingleTrace.step, ht]
  · rw [SingleTrace.step, ht]
  · rw [ByAgent.step, hba]
  · rw [ByAgent.step, hbt]
  · rw [ByAgent.step, hbt]
  · rw [IndividualTraces.step, hia]
  · rw [IndividualTraces.step, hit]
  · rw [IndividualTraces.step, hit]

/-- C9 witness: the unknown id "ghost" against the freshly constructed
trackers is a strict no-op in all nine handlers. -/
theorem c9_unknown_id_noop_witness :
    SingleTrace.step SingleTrace.init (Event.subagentStop "ghost" "/t") =
      (⟨true⟩, SingleTrace.init) ∧
    SingleTrace.step SingleTrace.init (Event.postToolUse "ghost" ⟨true, "x", "y"⟩) =
      (⟨true⟩, SingleTrace.init) ∧
    SingleTrace.step SingleTrace.init (Event.postToolUseFailure "ghost" (some "e")) =
      (⟨true⟩, SingleTrace.init) ∧
    ByAgent.step ByAgent.init (Event.subagentStop "ghost" "/t") =
      (⟨true⟩, ByAgent.init) ∧
    ByAgent.step ByAgent.init (Event.postToolUse "ghost" ⟨true, "x", "y"⟩) =
      (⟨true⟩, ByAgent.init) ∧
    ByAgent.step ByAgent.init (Event.postToolUseFailure "ghost" (some "e")) =
      (⟨true⟩, ByAgent.init) ∧
    IndividualTraces.step 7 IndividualTraces.init (Event.subagentStop "ghost" "/t") =
      (⟨true⟩, IndividualTraces.init) ∧
    IndividualTraces.step 7 IndividualTraces.init (Event.postToolUse "ghost" ⟨true, "x", "y"⟩) =
      (⟨true⟩, IndividualTraces.init) ∧
    IndividualTraces.step 7 IndividualTraces.init (Event.postToolUseFailure "ghost" (some "e")) =
      (⟨true⟩, IndividualTraces.init) :=
  c9_unknown_id_noop SingleTrace.init ByAgent.init 7 IndividualTraces.init
    "ghost" "/t" ⟨true, "x", "y"⟩ (some "e") rfl rfl rfl rfl rfl rfl

/-- C2: after cleanup, the agent and tool registries of every module contain
zero entries, for every sequence of lifecycle events, including sequences in
which start events never receive their matching stop/complete/fail event. -/
theorem c2_registries_empty_after_cleanup (evs : List Event)
    (tevs : List (Nat × Event)) (now : Nat) :
    (SingleTrace.cleanup (SingleTrace.runEvents evs SingleTrace.init)).agentSpans = [] ∧
    (SingleTrace.cleanup (SingleTrace.runEvents evs SingleTrace.init)).toolSpans = [] ∧
    (ByAgent.cleanup (ByAgent.runEvents evs ByAgent.init)).agentTraces = [] ∧
    (ByAgent.cleanup (ByAgent.runEvents evs ByAgent.init)).toolSpans = [] ∧
    (IndividualTraces.cleanup now (IndividualTraces.runEvents tevs IndividualTraces.init)).agentSpans = [] ∧
    (IndividualTraces.cleanup now (IndividualTraces.runEvents tevs IndividualTraces.init)).toolSpans = [] := by
  refine ⟨?_, ?_, ?_, ?_, ?_, ?_⟩ <;>
    simp [SingleTrace.cleanup, ByAgent.cleanup, IndividualTraces.cleanup,
      sweepSpans_snd]

/-- C1: the claim fails on the code.  In the single-trace variant the root
span is ended once at construction (`rootSpan.end()` inside
`withAgentTelemetry`) and again by the entry point's finally block
(`telemetry.cleanup(); telemetry.rootSpan.end()`), so after a run with no
events its end operation has been invoked twice, while the session span is
ended exactly once. -/
theorem c1_root_span_double_end :
    (SingleTrace.mainFinally (SingleTrace.runEvents [] SingleTrace.init)).tel.endCountOf
      (SingleTrace.runEvents [] SingleTrace.init).rootSpan = 2 ∧
    (SingleTrace.mainFinally (SingleTrace.runEvents [] SingleTrace.init)).tel.endCountOf
      (SingleTrace.runEvents [] SingleTrace.init).sessionSpan = 1 :=
  ⟨rfl, rfl⟩

/-- C5: the claim fails on the code.  A `UserPromptSubmit` payload whose
`prompt` field is absent makes the handler throw a TypeError (reading
`.length` of `undefined` inside `truncateAttribute(input.prompt)`) instead of
completing and returning the continue acknowledgment; on well-formed payloads
every handler does return the continue acknowledgment. -/
theorem c5_handler_throws_on_missing_prompt :
    SingleTrace.userPromptSubmitRaw SingleTrace.init
      ⟨"UserPromptSubmit", some "S1", none, some "/tmp", none⟩ =
      Except.error (JsError.typeError "Cannot read properties of undefined") ∧
    (∀ (s : SingleTrace.State) (e : Event), (SingleTrace.step s e).1 = ⟨true⟩) ∧
    (∀ (sb : ByAgent.State) (e : Event), (ByAgent.step sb e).1 = ⟨true⟩) ∧
    (∀ (now : Nat) (si : IndividualTraces.State) (e : Event),
      (IndividualTraces.step now si e).1 = ⟨true⟩) := by
  refine ⟨rfl, ?_, ?_, ?_⟩
  · intro s e
    cases e <;> rw [SingleTrace.step] <;>
      first
        | rfl
        | (rename_i id x; cases mapGet s.agentSpans id <;> rfl)
        | (rename_i id x; cases mapGet s.toolSpans id <;> rfl)
  · intro sb e
    cases e <;> rw [ByAgent.step] <;>
      first
        | rfl
        | (rename_i id x; cases mapGet sb.agentTraces id <;> rfl)
        | (rename_i id x; cases mapGet sb.toolSpans id <;> rfl)
  · intro now si e
    cases e <;> rw [IndividualTraces.step] <;>
      first
        | rfl
        | (rename_i id x; cases mapGet si.agentSpans id <;> rfl)
        | (rename_i id x; cases mapGet si.toolSpans id <;> rfl)

/-- C6: the claim fails on the code.  The by-agent module maintains a
long-lived session span but its cleanup never closes it: after a run and
cleanup, the session span has no status and zero end calls.  The single-trace
module does close its session span with status OK, and cleanup on a tracker
whose registries are already empty is safe (for the by-agent module it is the
identity). -/
theorem c6_session_span_leak_in_by_agent :
    (ByAgent.cleanup (ByAgent.runEvents [Event.subagentStart "A1" "code-reviewer" "S1"]
        ByAgent.init)).tel.endCountOf ByAgent.init.sessionSpan = 0 ∧
    (ByAgent.cleanup (ByAgent.runEvents [Event.subagentStart "A1" "code-reviewer" "S1"]
        ByAgent.init)).tel.statusOf ByAgent.init.sessionSpan = none ∧
    (SingleTrace.cleanup SingleTrace.init).tel.statusOf SingleTrace.init.sessionSpan =
      some ⟨StatusCode.ok, none⟩ ∧
    (SingleTrace.cleanup SingleTrace.init).tel.endCountOf SingleTrace.init.sessionSpan = 1 ∧
    ByAgent.cleanup ByAgent.init = ByAgent.init :=
  ⟨rfl, rfl, rfl, rfl, rfl⟩

/-- C4 counterexample: with agent "A1" open (and current), a tool started with
the explicit agent id "B" that is not in the registry is parented under the
session context (span 0) by the by-agent module, while the resolution order
the claim states yields the current agent A1's context (span 1). -/
theorem c4_parent_resolution_counterexample :
    ((ByAgent.step (ByAgent.runEvents [Event.subagentStart "A1" "code-reviewer" "S1"] ByAgent.init)
        (Event.preToolUse "U1" "Bash" ⟨true, "x", "y"⟩ (some "B") "S1")).2).tel.parentOf 2 =
      some (some 0) ∧
    claimedResolveParent (some "B")
      (ByAgent.runEvents [Event.subagentStart "A1" "code-reviewer" "S1"] ByAgent.init).agentTraces
      (ByAgent.runEvents [Event.subagentStart "A1" "code-reviewer" "S1"] ByAgent.init).currentAgentId
      (ByAgent.runEvents [Event.subagentStart "A1" "code-reviewer" "S1"] ByAgent.init).sessionSpan = 1 ∧
    (0 : Nat) ≠ 1 :=
  ⟨rfl, rfl, by decide⟩

theorem byAgentParent_eq_amended (aid cur : Option String)
    (reg : List (String × Nat)) (session : Nat) :
    (match (if isTruthy (jsOr aid cur) then mapGet reg ((jsOr aid cur).getD "") else none) with
      | some k => k
      | none => session) = amendedResolveByAgent aid cur reg session := by
  rw [jsOr, amendedResolveByAgent]
  by_cases ha : isTruthy aid
  · simp [ha]
  · simp [ha]
    by_cases hc : isTruthy cur
    · simp [hc]
    · simp [hc]

/-- C4 amended: the by-agent module resolves a tool span's parent as: the
explicit agent id's trace context when that id is truthy and present in the
registry; the session context when a truthy explicit id is supplied but
absent; otherwise the current agent's trace context when the current-agent
pointer is truthy and present, else the session context.  The single-trace
module ignores the explicit agent id entirely and parents under the most
recently started still-open agent span, else the session span.  In
particular, with agent A1 open a tool with no explicit agent id parents under
A1, and once A1 has stopped a new tool parents under the session context, in
both modules. -/
theorem c4_parent_resolution_amended :
    (∀ (sb : ByAgent.State) (uid name sid : String) (p : JsPayload)
      (aid : Option String),
      ((ByAgent.step sb (Event.preToolUse uid name p aid sid)).2).tel.parentOf
          sb.tel.nextId =
        some (some (amendedResolveByAgent aid sb.currentAgentId sb.agentTraces
          sb.sessionSpan))) ∧
    (∀ (s : SingleTrace.State) (uid name sid : String) (p : JsPayload)
      (aid : Option String),
      ((SingleTrace.step s (Event.preToolUse uid name p aid sid)).2).tel.parentOf
          s.tel.nextId =
        some (some (amendedResolveSingleTrace s.agentSpans s.sessionSpan))) ∧
    ((ByAgent.step (ByAgent.runEvents [Event.subagentStart "A1" "code-reviewer" "S1"] ByAgent.init)
        (Event.preToolUse "U1" "Bash" ⟨true, "x", "y"⟩ none "S1")).2).tel.parentOf 2 =
      some (some 1) ∧
    ((ByAgent.step (ByAgent.runEvents [Event.subagentStart "A1" "code-reviewer" "S1",
          Event.subagentStop "A1" "/t"] ByAgent.init)
        (Event.preToolUse "U2" "Bash" ⟨true, "x", "y"⟩ none "S1")).2).tel.parentOf 2 =
      some (some 0) ∧
    ((SingleTrace.step (SingleTrace.runEvents [Event.subagentStart "A1" "code-reviewer" "S1"] SingleTrace.init)
        (Event.preToolUse "U1" "Bash" ⟨true, "x", "y"⟩ none "S1")).2).tel.parentOf 3 =
      some (some 2) ∧
    ((SingleTrace.step (SingleTrace.runEvents [Event.subagentStart "A1" "code-reviewer" "S1",
          Event.subagentStop "A1" "/t"] SingleTrace.init)
        (Event.preToolUse "U2" "Bash" ⟨true, "x", "y"⟩ none "S1")).2).tel.parentOf 3 =
      some (some 1) := by
  refine ⟨?_, ?_, rfl, rfl, rfl, rfl⟩
  · intro sb uid name sid p aid
    rw [ByAgent.step]
    rw [← byAgentParent_eq_amended aid sb.currentAgentId sb.agentTraces sb.sessionSpan]
    by_cases h : isTruthy (jsOr aid sb.currentAgentId) <;>
      simp only [h, if_true, if_false, Bool.false_eq_true, ite_true, ite_false,
        Telemetry.setAttr, Telemetry.parentOf, Telemetry.span?_modify_self,
        Telemetry.span?_startSpan_new, Option.map_map, Option.map_some'] <;>
      simp [SpanInfo.setAttr]
  · intro s uid name sid p aid
    rw [SingleTrace.step, amendedResolveSingleTrace]
    cases s.agentSpans.getLast? <;>
      simp [Telemetry.setAttr, Telemetry.parentOf, Telemetry.span?_modify_self,
        Telemetry.span?_startSpan_new, SpanInfo.setAttr]

/-- C8 counterexample: in the individual-traces module a failure event for a
tool id that is present closes and removes the span, but records neither the
error message (no `tool.error` attribute) nor an exception annotation, so the
claim fails at this input. -/
theorem c8_failure_counterexample :
    (IndividualTraces.runEvents
        [(5, Event.preToolUse "U1" "Bash" ⟨true, "x", "y"⟩ none "S1"),
          (9, Event.postToolUseFailure "U1" (some "boom"))]
        IndividualTraces.init).tel.attrOf 0 "tool.error" = none ∧
    ((IndividualTraces.runEvents
        [(5, Event.preToolUse "U1" "Bash" ⟨true, "x", "y"⟩ none "S1"),
          (9, Event.postToolUseFailure "U1" (some "boom"))]
        IndividualTraces.init).tel.span? 0).map (fun sp => sp.exceptions) =
      some [] ∧
    (IndividualTraces.runEvents
        [(5, Event.preToolUse "U1" "Bash" ⟨true, "x", "y"⟩ none "S1"),
          (9, Event.postToolUseFailure "U1" (some "boom"))]
        IndividualTraces.init).tel.statusOf 0 =
      some ⟨StatusCode.error, some "Tool execution failed"⟩ ∧
    (IndividualTraces.runEvents
        [(5, Event.preToolUse "U1" "Bash" ⟨true, "x", "y"⟩ none "S1"),
          (9, Event.postToolUseFailure "U1" (some "boom"))]
        IndividualTraces.init).tel.endCountOf 0 = 1 ∧
    (IndividualTraces.runEvents
        [(5, Event.preToolUse "U1" "Bash" ⟨true, "x", "y"⟩ none "S1"),
          (9, Event.postToolUseFailure "U1" (some "boom"))]
        IndividualTraces.init).toolSpans = [] :=
  ⟨rfl, rfl, rfl, rfl, rfl⟩

/-- C8 amended: for a failure event whose tool id is present, the single-trace
and by-agent modules record the 10000-capped error message as `tool.error`,
mark `tool.success` false, append an exception annotation, set status ERROR
with the 256-capped message, end the span once and remove the id from the
tool registry; the individual-traces module instead records the duration and
`tool.success` false and sets status ERROR with the fixed message
"Tool execution failed", ending and removing likewise, while leaving the
`tool.error` attribute and the exception log untouched. -/
theorem c8_failure_path_amended (s : SingleTrace.State) (sb : ByAgent.State)
    (now : Nat) (si : IndividualTraces.State) (id idb idi : String)
    (err errb erri : Option String) (k : Nat) (sp : SpanInfo)
    (e : ByAgent.ToolEntry) (spb : SpanInfo)
    (d : IndividualTraces.SpanData) (spi : SpanInfo)
    (h1 : mapGet s.toolSpans id = some k) (h2 : s.tel.span? k = some sp)
    (h3 : mapGet sb.toolSpans idb = some e) (h4 : sb.tel.span? e.span = some spb)
    (h5 : mapGet si.toolSpans idi = some d) (h6 : si.tel.span? d.span = some spi) :
    (((SingleTrace.step s (Event.postToolUseFailure id err)).2).tel.attrOf k "tool.error" =
        some (AttrVal.s (truncateAttribute (errorOrDefault err) MAX_ATTRIBUTE_LENGTH)) ∧
      ((SingleTrace.step s (Event.postToolUseFailure id err)).2).tel.attrOf k "tool.success" =
        some (AttrVal.b false) ∧
      (((SingleTrace.step s (Event.postToolUseFailure id err)).2).tel.span? k).map
          (fun x => x.exceptions) = some (sp.exceptions ++ [errorOrDefault err]) ∧
      ((SingleTrace.step s (Event.postToolUseFailure id err)).2).tel.statusOf k =
        some ⟨StatusCode.error, some (truncateAttribute (errorOrDefault err) 256)⟩ ∧
      ((SingleTrace.step s (Event.postToolUseFailure id err)).2).tel.endCountOf k =
        sp.endCount + 1 ∧
      ((SingleTrace.step s (Event.postToolUseFailure id err)).2).toolSpans =
        mapDelete s.toolSpans id) ∧
    (((ByAgent.step sb (Event.postToolUseFailure idb errb)).2).tel.attrOf e.span "tool.error" =
        some (AttrVal.s (truncateAttribute (errorOrDefault errb) MAX_ATTRIBUTE_LENGTH)) ∧
      ((ByAgent.step sb (Event.postToolUseFailure idb errb)).2).tel.attrOf e.span "tool.success" =
        some (AttrVal.b false) ∧
      (((ByAgent.step sb (Event.postToolUseFailure idb errb)).2).tel.span? e.span).map
          (fun x => x.exceptions) = some (spb.exceptions ++ [errorOrDefault errb]) ∧
      ((ByAgent.step sb (Event.postToolUseFailure idb errb)).2).tel.statusOf e.span =
        some ⟨StatusCode.error, some (truncateAttribute (errorOrDefault errb) 256)⟩ ∧
      ((ByAgent.step sb (Event.postToolUseFailure idb errb)).2).tel.endCountOf e.span =
        spb.endCount + 1 ∧
      ((ByAgent.step sb (Event.postToolUseFailure idb errb)).2).toolSpans =
        mapDelete sb.toolSpans idb) ∧
    (((IndividualTraces.step now si (Event.postToolUseFailure idi erri)).2).tel.attrOf
        d.span "duration_ms" = some (AttrVal.n (now - d.startTime)) ∧
      ((IndividualTraces.step now si (Event.postToolUseFailure idi erri)).2).tel.attrOf
        d.span "tool.success" = some (AttrVal.b false) ∧
      ((IndividualTraces.step now si (Event.postToolUseFailure idi erri)).2).tel.attrOf
        d.span "tool.error" = spi.attr "tool.error" ∧
      (((IndividualTraces.step now si (Event.postToolUseFailure idi erri)).2).tel.span?
          d.span).map (fun x => x.exceptions) = some spi.exceptions ∧
      ((IndividualTraces.step now si (Event.postToolUseFailure idi erri)).2).tel.statusOf
        d.span = some ⟨StatusCode.error, some "Tool execution failed"⟩ ∧
      ((IndividualTraces.step now si (Event.postToolUseFailure idi erri)).2).tel.endCountOf
        d.span = spi.endCount + 1 ∧
      ((IndividualTraces.step now si (Event.postToolUseFailure idi erri)).2).toolSpans =
        mapDelete si.toolSpans idi) := by
  obtain ⟨hs, hreg, -⟩ := SingleTrace.stSpanPostToolUseFailure s id err k sp h1 h2
  obtain ⟨hb, hbreg, -⟩ := ByAgent.baSpanPostToolUseFailure sb idb errb e spb h3 h4
  obtain ⟨hi, hireg, -⟩ := IndividualTraces.itSpanPostToolUseFailure now si idi erri d spi h5 h6
  refine ⟨⟨?_, ?_, ?_, ?_, ?_, hreg⟩, ⟨?_, ?_, ?_, ?_, ?_, hbreg⟩,
    ⟨?_, ?_, ?_, ?_, ?_, ?_, hireg⟩⟩ <;>
    simp [Telemetry.attrOf, Telemetry.statusOf, Telemetry.endCountOf, hs, hb, hi,
      SpanInfo.endOnce, SpanInfo.putStatus, SpanInfo.recordExc, SpanInfo.setAttr,
      SpanInfo.attr]

/-- C8 witness: a concrete failed tool call in the single-trace module carries
the capped error status, while the same failure in the individual-traces
module leaves no `tool.error` attribute. -/
theorem c8_failure_path_amended_witness :
    ((SingleTrace.step
        (SingleTrace.runEvents [Event.preToolUse "U2" "Read" ⟨true, "q", "r"⟩ none "S2"] SingleTrace.init)
        (Event.postToolUseFailure "U2" (some "oops"))).2).tel.statusOf 2 =
      some ⟨StatusCode.error, some (truncateAttribute (errorOrDefault (some "oops")) 256)⟩ ∧
    ((IndividualTraces.step 9
        (IndividualTraces.runEvents [(3, Event.preToolUse "U2" "Read" ⟨true, "q", "r"⟩ none "S2")] IndividualTraces.init)
        (Event.postToolUseFailure "U2" (some "oops"))).2).tel.attrOf 0 "tool.error" =
      none := by
  have h := c8_failure_path_amended
    (SingleTrace.runEvents [Event.preToolUse "U2" "Read" ⟨true, "q", "r"⟩ none "S2"] SingleTrace.init)
    (ByAgent.runEvents [Event.preToolUse "U2" "Read" ⟨true, "q", "r"⟩ none "S2"] ByAgent.init)
    9 (IndividualTraces.runEvents [(3, Event.preToolUse "U2" "Read" ⟨true, "q", "r"⟩ none "S2")] IndividualTraces.init)
    "U2" "U2" "U2" (some "oops") (some "oops") (some "oops") 2 _ ⟨1, none⟩ _ ⟨0, 3⟩ _
    (by decide) rfl (by decide) rfl (by decide) rfl
  exact ⟨h.1.2.2.2.1, h.2.2.2.2.1.trans (by rfl)⟩

/-- C3 counterexample: agent "A1" is still present in the by-agent module's
agent registry when cleanup runs, yet its span is closed with status message
"Orphaned agent trace", which differs from "Orphaned span"; the claim fails at
this input. -/
theorem c3_orphan_message_counterexample :
    (ByAgent.runEvents [Event.subagentStart "A1" "code-reviewer" "S1"] ByAgent.init).agentTraces =
      [("A1", 1)] ∧
    (ByAgent.cleanup (ByAgent.runEvents [Event.subagentStart "A1" "code-reviewer" "S1"]
        ByAgent.init)).tel.statusOf 1 =
      some ⟨StatusCode.error, some "Orphaned agent trace"⟩ ∧
    some (SpanStatus.mk StatusCode.error (some "Orphaned agent trace")) ≠
      some (SpanStatus.mk StatusCode.error (some "Orphaned span")) :=
  ⟨rfl, rfl, by decide⟩

/-- C3 amended: every span still present in the tool registry at cleanup is
closed with status ERROR and message "Orphaned span" in all three modules;
spans still present in the agent registry are closed with status ERROR and
message "Orphaned span" in the single-trace and individual-traces modules but
"Orphaned agent trace" in the by-agent module.  Spans closed by their normal
matching stop/complete events get status OK with no message — never the
orphan marker — and spans closed by the failure event carry that event's own
message (the 256-capped error text, or the fixed "Tool execution failed" in
the individual-traces module). -/
theorem c3_orphan_marking_amended :
    (∀ (s : SingleTrace.State) (k : Nat) (sp' : SpanInfo),
      (k ∈ s.toolSpans.map (fun p => p.2) ∨ k ∈ s.agentSpans.map (fun p => p.2)) →
      k ≠ s.sessionSpan →
      (SingleTrace.cleanup s).tel.span? k = some sp' →
      sp'.status = some ⟨StatusCode.error, some "Orphaned span"⟩ ∧ 0 < sp'.endCount) ∧
    (∀ (sb : ByAgent.State) (k : Nat) (sp' : SpanInfo),
      k ∈ sb.toolSpans.map (fun p => p.2.span) →
      k ∉ sb.agentTraces.map (fun p => p.2) →
      (ByAgent.cleanup sb).tel.span? k = some sp' →
      sp'.status = some ⟨StatusCode.error, some "Orphaned span"⟩ ∧ 0 < sp'.endCount) ∧
    (∀ (sb : ByAgent.State) (k : Nat) (sp' : SpanInfo),
      k ∈ sb.agentTraces.map (fun p => p.2) →
      (ByAgent.cleanup sb).tel.span? k = some sp' →
      sp'.status = some ⟨StatusCode.error, some "Orphaned agent trace"⟩ ∧ 0 < sp'.endCount) ∧
    (∀ (now : Nat) (si : IndividualTraces.State) (k : Nat) (sp' : SpanInfo),
      (k ∈ si.toolSpans.map (fun p => p.2.span) ∨ k ∈ si.agentSpans.map (fun p => p.2.span)) →
      (IndividualTraces.cleanup now si).tel.span? k = some sp' →
      sp'.status = some ⟨StatusCode.error, some "Orphaned span"⟩ ∧ 0 < sp'.endCount) ∧
    (∀ (s : SingleTrace.State) (id path : String) (k : Nat) (sp : SpanInfo),
      mapGet s.agentSpans id = some k → s.tel.span? k = some sp →
      ((SingleTrace.step s (Event.subagentStop id path)).2).tel.statusOf k =
        some ⟨StatusCode.ok, none⟩) ∧
    (∀ (s : SingleTrace.State) (id : String) (resp : JsPayload) (k : Nat) (sp : SpanInfo),
      mapGet s.toolSpans id = some k → s.tel.span? k = some sp →
      ((SingleTrace.step s (Event.postToolUse id resp)).2).tel.statusOf k =
        some ⟨StatusCode.ok, none⟩) ∧
    (∀ (s : SingleTrace.State) (id : String) (err : Option String) (k : Nat) (sp : SpanInfo),
      mapGet s.toolSpans id = some k → s.tel.span? k = some sp →
      ((SingleTrace.step s (Event.postToolUseFailure id err)).2).tel.statusOf k =
        some ⟨StatusCode.error, some (truncateAttribute (errorOrDefault err) 256)⟩) ∧
    (∀ (sb : ByAgent.State) (id path : String) (k : Nat) (sp : SpanInfo),
      mapGet sb.agentTraces id = some k → sb.tel.span? k = some sp →
      ((ByAgent.step sb (Event.subagentStop id path)).2).tel.statusOf k =
        some ⟨StatusCode.ok, none⟩) ∧
    (∀ (sb : ByAgent.State) (id : String) (resp : JsPayload) (e : ByAgent.ToolEntry) (sp : SpanInfo),
      mapGet sb.toolSpans id = some e → sb.tel.span? e.span = some sp →
      ((ByAgent.step sb (Event.postToolUse id resp)).2).tel.statusOf e.span =
        some ⟨StatusCode.ok, none⟩) ∧
    (∀ (sb : ByAgent.State) (id : String) (err : Option String) (e : ByAgent.ToolEntry) (sp : SpanInfo),
      mapGet sb.toolSpans id = some e → sb.tel.span? e.span = some sp →
      ((ByAgent.step sb (Event.postToolUseFailure id err)).2).tel.statusOf e.span =
        some ⟨StatusCode.error, some (truncateAttribute (errorOrDefault err) 256)⟩) ∧
    (∀ (now : Nat) (si : IndividualTraces.State) (id path : String)
      (d : IndividualTraces.SpanData) (sp : SpanInfo),
      mapGet si.agentSpans id = some d → si.tel.span? d.span = some sp →
      ((IndividualTraces.step now si (Event.subagentStop id path)).2).tel.statusOf d.span =
        some ⟨StatusCode.ok, none⟩) ∧
    (∀ (now : Nat) (si : IndividualTraces.State) (id : String) (resp : JsPayload)
      (d : IndividualTraces.SpanData) (sp : SpanInfo),
      mapGet si.toolSpans id = some d → si.tel.span? d.span = some sp →
      ((IndividualTraces.step now si (Event.postToolUse id resp)).2).tel.statusOf d.span =
        some ⟨StatusCode.ok, none⟩) ∧
    (∀ (now : Nat) (si : IndividualTraces.State) (id : String) (err : Option String)
      (d : IndividualTraces.SpanData) (sp : SpanInfo),
      mapGet si.toolSpans id = some d → si.tel.span? d.span = some sp →
      ((IndividualTraces.step now si (Event.postToolUseFailure id err)).2).tel.statusOf d.span =
        some ⟨StatusCode.error, some "Tool execution failed"⟩) := by
  have horph : ∀ (msg : String) (sp : SpanInfo),
      (orphanClose msg sp).status = some ⟨StatusCode.error, some msg⟩ ∧
      0 < (orphanClose msg sp).endCount := by
    intro msg sp
    simp [orphanClose, SpanInfo.putStatus, SpanInfo.endOnce]
  refine ⟨?_, ?_, ?_, ?_, ?_, ?_, ?_, ?_, ?_, ?_, ?_, ?_, ?_⟩
  · intro s k sp' hmem hses hsp
    unfold SingleTrace.cleanup at hsp
    simp only [Telemetry.endSpan, Telemetry.putStatus] at hsp
    rw [Telemetry.span?_modify_ne _ _ hses, Telemetry.span?_modify_ne _ _ hses] at hsp
    by_cases hag : k ∈ s.agentSpans.map (fun p => p.2)
    · exact sweepSpans_prop (fun sp => sp.status = some ⟨StatusCode.error, some "Orphaned span"⟩ ∧ 0 < sp.endCount) (fun v sp => horph "Orphaned span" sp) _
        s.agentSpans k sp' hag hsp
    · rw [sweepSpans_span?_notMem hag] at hsp
      exact sweepSpans_prop (fun sp => sp.status = some ⟨StatusCode.error, some "Orphaned span"⟩ ∧ 0 < sp.endCount) (fun v sp => horph "Orphaned span" sp) _
        s.toolSpans k sp' (hmem.resolve_right hag) hsp
  · intro sb k sp' htool hag hsp
    unfold ByAgent.cleanup at hsp
    simp only [] at hsp
    rw [sweepSpans_span?_notMem hag] at hsp
    exact sweepSpans_prop (fun sp => sp.status = some ⟨StatusCode.error, some "Orphaned span"⟩ ∧ 0 < sp.endCount) (fun v sp => horph "Orphaned span" sp) _
      sb.toolSpans k sp' htool hsp
  · intro sb k sp' hag hsp
    unfold ByAgent.cleanup at hsp
    simp only [] at hsp
    exact sweepSpans_prop (fun sp => sp.status = some ⟨StatusCode.error, some "Orphaned agent trace"⟩ ∧ 0 < sp.endCount) (fun v sp => horph "Orphaned agent trace" sp) _
      sb.agentTraces k sp' hag hsp
  · intro now si k sp' hmem hsp
    unfold IndividualTraces.cleanup at hsp
    simp only [] at hsp
    by_cases hag : k ∈ si.agentSpans.map (fun p => p.2.span)
    · exact sweepSpans_prop (fun sp => sp.status = some ⟨StatusCode.error, some "Orphaned span"⟩ ∧ 0 < sp.endCount) (fun v sp => horph "Orphaned span" _) _
        si.agentSpans k sp' hag hsp
    · rw [sweepSpans_span?_notMem hag] at hsp
      exact sweepSpans_prop (fun sp => sp.status = some ⟨StatusCode.error, some "Orphaned span"⟩ ∧ 0 < sp.endCount) (fun v sp => horph "Orphaned span" _) _
        si.toolSpans k sp' (hmem.resolve_right hag) hsp
  · intro s id path k sp h1 h2
    obtain ⟨hs, -, -⟩ := SingleTrace.stSpanSubagentStop s id path k sp h1 h2
    simp [Telemetry.statusOf, hs, SpanInfo.endOnce, SpanInfo.putStatus]
  · intro s id resp k sp h1 h2
    obtain ⟨hs, -, -⟩ := SingleTrace.stSpanPostToolUse s id resp k sp h1 h2
    simp [Telemetry.statusOf, hs, SpanInfo.endOnce, SpanInfo.putStatus]
  · intro s id err k sp h1 h2
    obtain ⟨hs, -, -⟩ := SingleTrace.stSpanPostToolUseFailure s id err k sp h1 h2
    simp [Telemetry.statusOf, hs, SpanInfo.endOnce, SpanInfo.putStatus]
  · intro sb id path k sp h1 h2
    obtain ⟨hs, -, -⟩ := ByAgent.baSpanSubagentStop sb id path k sp h1 h2
    simp [Telemetry.statusOf, hs, SpanInfo.endOnce, SpanInfo.putStatus]
  · intro sb id resp e sp h1 h2
    obtain ⟨hs, -, -⟩ := ByAgent.baSpanPostToolUse sb id resp e sp h1 h2
    simp [Telemetry.statusOf, hs, SpanInfo.endOnce, SpanInfo.putStatus]
  · intro sb id err e sp h1 h2
    obtain ⟨hs, -, -⟩ := ByAgent.baSpanPostToolUseFailure sb id err e sp h1 h2
    simp [Telemetry.statusOf, hs, SpanInfo.endOnce, SpanInfo.putStatus]
  · intro now si id path d sp h1 h2
    obtain ⟨hs, -, -⟩ := IndividualTraces.itSpanSubagentStop now si id path d sp h1 h2
    simp [Telemetry.statusOf, hs, SpanInfo.endOnce, SpanInfo.putStatus]
  · intro now si id resp d sp h1 h2
    obtain ⟨hs, -, -⟩ := IndividualTraces.itSpanPostToolUse now si id resp d sp h1 h2
    simp [Telemetry.statusOf, hs, SpanInfo.endOnce, SpanInfo.putStatus]
  · intro now si id err d sp h1 h2
    obtain ⟨hs, -, -⟩ := IndividualTraces.itSpanPostToolUseFailure now si id err d sp h1 h2
    simp [Telemetry.statusOf, hs, SpanInfo.endOnce, SpanInfo.putStatus]

/-- C3 witness: a concrete orphaned agent span in the single-trace module gets
"Orphaned span", the same situation in the by-agent module gets
"Orphaned agent trace", and a normally stopped agent gets status OK with no
message. -/
theorem c3_orphan_marking_amended_witness :
    (SingleTrace.cleanup (SingleTrace.runEvents [Event.subagentStart "A1" "code-reviewer" "S1"]
        SingleTrace.init)).tel.statusOf 2 =
      some ⟨StatusCode.error, some "Orphaned span"⟩ ∧
    (ByAgent.cleanup (ByAgent.runEvents [Event.subagentStart "A2" "test-runner" "S1"]
        ByAgent.init)).tel.statusOf 1 =
      some ⟨StatusCode.error, some "Orphaned agent trace"⟩ ∧
    ((SingleTrace.step (SingleTrace.runEvents [Event.subagentStart "A1" "code-reviewer" "S1"]
        SingleTrace.init) (Event.subagentStop "A1" "/t")).2).tel.statusOf 2 =
      some ⟨StatusCode.ok, none⟩ := by
  obtain ⟨hA, hB1, hB2, hC, hD1, hrest⟩ := c3_orphan_marking_amended
  refine ⟨?_, ?_, ?_⟩
  · exact (hA (SingleTrace.runEvents [Event.subagentStart "A1" "code-reviewer" "S1"]
      SingleTrace.init) 2 _ (Or.inr (by decide)) (by decide) rfl).1
  · exact (hB2 (ByAgent.runEvents [Event.subagentStart "A2" "test-runner" "S1"]
      ByAgent.init) 1 _ (by decide) rfl).1
  · exact hD1 (SingleTrace.runEvents [Event.subagentStart "A1" "code-reviewer" "S1"]
      SingleTrace.init) "A1" "/t" 2 _ (by decide) rfl
